import Mathlib

/-!
Shallow embedding of the matching and scoring core of the
kenya-startup-navigator backend (app/services/matching_service.py,
app/services/groq_service.py, app/models/schemas.py).

Python floats are embedded as exact rationals (ℚ); Python ints that are
compared against or divided with floats (ticket sizes, funding targets)
are embedded as ℚ as well.  Datetimes are abstracted to whole-day counts
(ℤ): the only use the scoring core makes of a datetime is the day
difference `(application_deadline - datetime.now()).days`.
-/

/-! ## Data model (app/models/schemas.py) -/

/-- Enumeration `StartupStage` of schemas.py. -/
inductive StartupStage where
  | idea | mvp | pre_seed | seed | series_a | series_b | growth | mature
deriving DecidableEq

/-- Enumeration `Industry` of schemas.py. -/
inductive Industry where
  | fintech | agritech | healthtech | edtech | ecommerce | logistics
  | cleantech | proptech | blockchain | ai_ml | media | retail | other
deriving DecidableEq

/-- Enumeration `Location` of schemas.py. -/
inductive Location where
  | nairobi | mombasa | kisumu | eldoret | nakuru | meru | nyeri | other
deriving DecidableEq

/-- The fields of `StartupProfile` that the matching core reads.
`funding_amount_target` is `Optional[float]` in the schema. -/
structure StartupProfile where
  industry : Industry
  stage : StartupStage
  location : Location
  funding_amount_target : Option ℚ
deriving DecidableEq

/-- The fields of `InvestorProfile` that the matching core reads.
In the schema `ticket_size_min` and `ticket_size_max` are integers
constrained to be ≥ 0. -/
structure InvestorProfile where
  name : String
  focus_industries : List Industry
  focus_stages : List StartupStage
  ticket_size_min : ℚ
  ticket_size_max : ℚ
  geographic_focus : List Location
  portfolio_companies : List String
deriving DecidableEq

/-- The fields of `EcosystemEntity` (accelerators) that the matching core
reads; `application_deadline` is abstracted to a day count. -/
structure EcosystemEntity where
  name : String
  location : Location
  focus_industries : List Industry
  focus_stages : List StartupStage
  application_deadline : Option ℤ
deriving DecidableEq

/-- Model of `MatchScore` of schemas.py (the five sub-scores plus the overall). -/
structure MatchScore where
  overall_score : ℚ
  industry_alignment : ℚ
  stage_fit : ℚ
  ticket_size_match : ℚ
  geographic_preference : ℚ
  portfolio_synergy : ℚ
deriving DecidableEq

/-! ## Investor match scorer (matching_service.py) -/

/-- The weight dictionary `self.investor_match_weights` set in
`MatchingService.__init__`. -/
structure InvestorMatchWeights where
  industry_alignment : ℚ
  stage_fit : ℚ
  ticket_size_match : ℚ
  geographic_preference : ℚ
  portfolio_synergy : ℚ

/-- The concrete weights assigned in `MatchingService.__init__`. -/
def investor_match_weights : InvestorMatchWeights :=
  { industry_alignment := 0.30
    stage_fit := 0.25
    ticket_size_match := 0.20
    geographic_preference := 0.15
    portfolio_synergy := 0.10 }

/-- The ordered `stage_order` list used by the stage-fit computation. -/
def stage_order : List StartupStage :=
  [StartupStage.idea, StartupStage.mvp, StartupStage.pre_seed,
   StartupStage.seed, StartupStage.series_a, StartupStage.series_b,
   StartupStage.growth, StartupStage.mature]

/-- Computes `stage_order.index(s)`; total because `StartupStage` is a closed
enumeration and `stage_order` lists every constructor. -/
def stageIndex (s : StartupStage) : ℕ := stage_order.indexOf s

/-- Section 1 of `_calculate_investor_match_score`: industry alignment. -/
def industryScore (startup : StartupProfile) (investor : InvestorProfile) : ℚ :=
  if startup.industry ∈ investor.focus_industries then 1.0
  else if investor.focus_industries.length = 0 then 0.6
  else 0.0

/-- Section 2 of `_calculate_investor_match_score`: stage fit.  The
`try/except ValueError` of the source: for a valid enum, `list.index`
never raises, so the only `ValueError` comes from `min([])` when
`focus_stages` is empty — embedded via `minimum?` returning `none`. -/
def stageScore (startup : StartupProfile) (investor : InvestorProfile) : ℚ :=
  if startup.stage ∈ investor.focus_stages then 1.0
  else
    match (investor.focus_stages.map
        (fun stage => ((stageIndex startup.stage : ℤ) - (stageIndex stage : ℤ)).natAbs)).min? with
    | some min_distance => max 0 (1.0 - (min_distance : ℚ) * 0.3)
    | none => 0.2

/-- Section 3 of `_calculate_investor_match_score`: ticket size match.
Python's `if startup.funding_amount_target:` is falsy both for `None`
and for a zero target, hence the explicit `target = 0` branch. -/
def ticketScore (startup : StartupProfile) (investor : InvestorProfile) : ℚ :=
  match startup.funding_amount_target with
  | some target =>
    if target = 0 then 0.6
    else if investor.ticket_size_min ≤ target ∧ target ≤ investor.ticket_size_max then 1.0
    else if target < investor.ticket_size_min then
      max 0 (target / investor.ticket_size_min * 0.7)
    else if investor.ticket_size_max < target then
      max 0 (investor.ticket_size_max / target * 0.8)
    else 0.0
  | none => 0.6

/-- Section 4 of `_calculate_investor_match_score`: geographic preference. -/
def geoScore (startup : StartupProfile) (investor : InvestorProfile) : ℚ :=
  if startup.location ∈ investor.geographic_focus then 1.0
  else if Location.other ∈ investor.geographic_focus then 0.8
  else 0.3

/-- Section 5 of `_calculate_investor_match_score`: portfolio synergy. -/
def synergyScore (investor : InvestorProfile) : ℚ :=
  if investor.portfolio_companies.length ≠ 0 then
    if 0 < investor.portfolio_companies.length then 0.6 else 0.0
  else 0.4

/-- Model of `MatchingService._calculate_investor_match_score`, assembled from the
five sections above exactly as in the source, with the weighted overall
score read from the weight dictionary. -/
def _calculate_investor_match_score (w : InvestorMatchWeights)
    (startup : StartupProfile) (investor : InvestorProfile) : MatchScore :=
  { overall_score :=
      industryScore startup investor * w.industry_alignment +
      stageScore startup investor * w.stage_fit +
      ticketScore startup investor * w.ticket_size_match +
      geoScore startup investor * w.geographic_preference +
      synergyScore investor * w.portfolio_synergy
    industry_alignment := industryScore startup investor
    stage_fit := stageScore startup investor
    ticket_size_match := ticketScore startup investor
    geographic_preference := geoScore startup investor
    portfolio_synergy := synergyScore investor }

/-- Claim C1: for every startup profile and investor, the overall score
equals the dot product of the five sub-scores with the fixed weight
vector (0.30, 0.25, 0.20, 0.15, 0.10); in the rational embedding the
equality is exact. -/
theorem overall_score_is_weighted_dot (s : StartupProfile) (i : InvestorProfile) :
    (_calculate_investor_match_score investor_match_weights s i).overall_score =
      (_calculate_investor_match_score investor_match_weights s i).industry_alignment * 0.30 +
      (_calculate_investor_match_score investor_match_weights s i).stage_fit * 0.25 +
      (_calculate_investor_match_score investor_match_weights s i).ticket_size_match * 0.20 +
      (_calculate_investor_match_score investor_match_weights s i).geographic_preference * 0.15 +
      (_calculate_investor_match_score investor_match_weights s i).portfolio_synergy * 0.10 := rfl

/-! ## Sample inputs used by witnesses -/

/-- A concrete startup profile: the scenario profile of the spec
(fintech, seed, hub location, funding target 2,000,000). -/
def sampleStartupA : StartupProfile :=
  { industry := Industry.fintech
    stage := StartupStage.seed
    location := Location.nairobi
    funding_amount_target := some 2000000 }

/-- A concrete investor whose ticket range [50000, 250000] lies below the
sample profile's funding target. -/
def sampleInvestorB : InvestorProfile :=
  { name := "Sample Capital"
    focus_industries := [Industry.fintech]
    focus_stages := [StartupStage.seed, StartupStage.series_a]
    ticket_size_min := 50000
    ticket_size_max := 250000
    geographic_focus := [Location.nairobi]
    portfolio_companies := [] }

/-- A concrete investor that declares an empty `focus_stages` list. -/
def sampleInvestorC : InvestorProfile :=
  { name := "Fresh Fund"
    focus_industries := []
    focus_stages := []
    ticket_size_min := 10000
    ticket_size_max := 90000
    geographic_focus := [Location.other]
    portfolio_companies := ["AcmeCo"] }

/-- Claim C3: with a positive declared funding target T the ticket-size
sub-score is 1.0 inside the investor's range, max(0, (T/min)·0.7) below
it, and max(0, (max/T)·0.8) above it; with no target it is 0.6.  The
hypothesis `min ≤ max` is the ordered-pair invariant of the investor
data model. -/
theorem ticket_size_match_formula (s : StartupProfile) (i : InvestorProfile)
    (hordered : i.ticket_size_min ≤ i.ticket_size_max) :
    (∀ t : ℚ, s.funding_amount_target = some t → 0 < t →
      ((i.ticket_size_min ≤ t ∧ t ≤ i.ticket_size_max →
          (_calculate_investor_match_score investor_match_weights s i).ticket_size_match = 1.0) ∧
       (t < i.ticket_size_min →
          (_calculate_investor_match_score investor_match_weights s i).ticket_size_match =
            max 0 (t / i.ticket_size_min * 0.7)) ∧
       (i.ticket_size_max < t →
          (_calculate_investor_match_score investor_match_weights s i).ticket_size_match =
            max 0 (i.ticket_size_max / t * 0.8)))) ∧
    (s.funding_amount_target = none →
      (_calculate_investor_match_score investor_match_weights s i).ticket_size_match = 0.6) := by
  have hfield :
      (_calculate_investor_match_score investor_match_weights s i).ticket_size_match =
        ticketScore s i := rfl
  constructor
  · intro t ht hpos
    refine ⟨?_, ?_, ?_⟩
    · intro hin
      simp [hfield, ticketScore, ht, hpos.ne', hin.1, hin.2]
    · intro hlt
      simp [hfield, ticketScore, ht, hpos.ne', hlt, hlt.not_le]
    · intro hgt
      have h1 : ¬ t ≤ i.ticket_size_max := hgt.not_le
      have h2 : ¬ t < i.ticket_size_min :=
        not_lt.2 (le_of_lt (lt_of_le_of_lt hordered hgt))
      simp [hfield, ticketScore, ht, hpos.ne', h1, h2, hgt]
  · intro hnone
    simp [hfield, ticketScore, hnone]

/-- Witness for C3, the spec's own scenario: funding target 2,000,000
against ticket range [50000, 250000] gives a ticket-size sub-score of
exactly (250000/2000000)·0.8 = 0.1. -/
theorem ticket_size_match_formula_witness :
    (_calculate_investor_match_score investor_match_weights
        sampleStartupA sampleInvestorB).ticket_size_match = 0.1 := by
  have h := (ticket_size_match_formula sampleStartupA sampleInvestorB
      (by norm_num [sampleInvestorB])).1 2000000 rfl (by norm_num)
  rw [h.2.2 (by norm_num [sampleInvestorB])]
  norm_num [sampleInvestorB]

/-- Claim C10: when an investor declares an empty `focus_stages` list the
stage-fit sub-score is exactly 0.2: the minimum over an empty distance
list is the internally caught error case, and the scorer (a total
function here) returns the defensive fallback rather than failing. -/
theorem stage_fit_empty_focus_stages (s : StartupProfile) (i : InvestorProfile)
    (h : i.focus_stages = []) :
    (_calculate_investor_match_score investor_match_weights s i).stage_fit = 0.2 := by
  have hfield :
      (_calculate_investor_match_score investor_match_weights s i).stage_fit =
        stageScore s i := rfl
  rw [hfield]
  simp [stageScore, h]

/-- Witness for C10 at a concrete profile and an investor with an empty
`focus_stages` list. -/
theorem stage_fit_empty_focus_stages_witness :
    (_calculate_investor_match_score investor_match_weights
        sampleStartupA sampleInvestorC).stage_fit = 0.2 :=
  stage_fit_empty_focus_stages sampleStartupA sampleInvestorC rfl
/-! ## Bounds of the five sub-scores -/

/-- The industry-alignment sub-score lies in [0,1]. -/
lemma industryScore_bounds (s : StartupProfile) (i : InvestorProfile) :
    0 ≤ industryScore s i ∧ industryScore s i ≤ 1 := by
  unfold industryScore
  split_ifs <;> norm_num

/-- The stage-fit sub-score lies in [0,1]. -/
lemma stageScore_bounds (s : StartupProfile) (i : InvestorProfile) :
    0 ≤ stageScore s i ∧ stageScore s i ≤ 1 := by
  unfold stageScore
  split
  · norm_num
  · rcases hmin : (i.focus_stages.map
        (fun stage => ((stageIndex s.stage : ℤ) - (stageIndex stage : ℤ)).natAbs)).min? with _ | d
    · norm_num
    · refine ⟨le_max_left _ _, max_le (by norm_num) ?_⟩
      have hd : (0:ℚ) ≤ (d : ℚ) := Nat.cast_nonneg d
      nlinarith

/-- The ticket-size sub-score lies in [0,1] provided any declared funding
target is positive. -/
lemma ticketScore_bounds (s : StartupProfile) (i : InvestorProfile)
    (hpos : ∀ t : ℚ, s.funding_amount_target = some t → 0 < t) :
    0 ≤ ticketScore s i ∧ ticketScore s i ≤ 1 := by
  rcases ht : s.funding_amount_target with _ | t
  · simp only [ticketScore, ht]
    norm_num
  · have htpos : 0 < t := hpos t ht
    simp only [ticketScore, ht]
    split_ifs with h0 hin hlo hhi
    · norm_num
    · norm_num
    · refine ⟨le_max_left _ _, max_le (by norm_num) ?_⟩
      have hminpos : 0 < i.ticket_size_min := lt_trans htpos hlo
      have hratio : t / i.ticket_size_min < 1 := (div_lt_one hminpos).mpr hlo
      nlinarith
    · refine ⟨le_max_left _ _, max_le (by norm_num) ?_⟩
      have hratio : i.ticket_size_max / t < 1 := (div_lt_one htpos).mpr hhi
      nlinarith
    · norm_num

/-- The geographic-preference sub-score lies in [0,1]. -/
lemma geoScore_bounds (s : StartupProfile) (i : InvestorProfile) :
    0 ≤ geoScore s i ∧ geoScore s i ≤ 1 := by
  unfold geoScore
  split_ifs <;> norm_num

/-- The portfolio-synergy sub-score lies in [0,1]. -/
lemma synergyScore_bounds (i : InvestorProfile) :
    0 ≤ synergyScore i ∧ synergyScore i ≤ 1 := by
  unfold synergyScore
  split_ifs <;> norm_num

/-- Claim C2: for every startup profile whose declared funding target (if
any) is positive and every investor, the five sub-scores and the overall
score of the investor match all lie in the closed interval [0,1]. -/
theorem investor_match_scores_in_unit_interval (s : StartupProfile) (i : InvestorProfile)
    (hpos : ∀ t : ℚ, s.funding_amount_target = some t → 0 < t) :
    (0 ≤ (_calculate_investor_match_score investor_match_weights s i).industry_alignment ∧
       (_calculate_investor_match_score investor_match_weights s i).industry_alignment ≤ 1) ∧
    (0 ≤ (_calculate_investor_match_score investor_match_weights s i).stage_fit ∧
       (_calculate_investor_match_score investor_match_weights s i).stage_fit ≤ 1) ∧
    (0 ≤ (_calculate_investor_match_score investor_match_weights s i).ticket_size_match ∧
       (_calculate_investor_match_score investor_match_weights s i).ticket_size_match ≤ 1) ∧
    (0 ≤ (_calculate_investor_match_score investor_match_weights s i).geographic_preference ∧
       (_calculate_investor_match_score investor_match_weights s i).geographic_preference ≤ 1) ∧
    (0 ≤ (_calculate_investor_match_score investor_match_weights s i).portfolio_synergy ∧
       (_calculate_investor_match_score investor_match_weights s i).portfolio_synergy ≤ 1) ∧
    (0 ≤ (_calculate_investor_match_score investor_match_weights s i).overall_score ∧
       (_calculate_investor_match_score investor_match_weights s i).overall_score ≤ 1) := by
  obtain ⟨ha0, ha1⟩ := industryScore_bounds s i
  obtain ⟨hb0, hb1⟩ := stageScore_bounds s i
  obtain ⟨hc0, hc1⟩ := ticketScore_bounds s i hpos
  obtain ⟨hd0, hd1⟩ := geoScore_bounds s i
  obtain ⟨he0, he1⟩ := synergyScore_bounds i
  refine ⟨⟨ha0, ha1⟩, ⟨hb0, hb1⟩, ⟨hc0, hc1⟩, ⟨hd0, hd1⟩, ⟨he0, he1⟩, ?_, ?_⟩
  · show 0 ≤ industryScore s i * investor_match_weights.industry_alignment +
      stageScore s i * investor_match_weights.stage_fit +
      ticketScore s i * investor_match_weights.ticket_size_match +
      geoScore s i * investor_match_weights.geographic_preference +
      synergyScore i * investor_match_weights.portfolio_synergy
    unfold investor_match_weights
    nlinarith
  · show industryScore s i * investor_match_weights.industry_alignment +
      stageScore s i * investor_match_weights.stage_fit +
      ticketScore s i * investor_match_weights.ticket_size_match +
      geoScore s i * investor_match_weights.geographic_preference +
      synergyScore i * investor_match_weights.portfolio_synergy ≤ 1
    unfold investor_match_weights
    nlinarith

/-- Witness for C2: the overall score of the sample profile against the
sample investor lies in [0,1]. -/
theorem investor_match_scores_in_unit_interval_witness :
    0 ≤ (_calculate_investor_match_score investor_match_weights
          sampleStartupA sampleInvestorB).overall_score ∧
    (_calculate_investor_match_score investor_match_weights
          sampleStartupA sampleInvestorB).overall_score ≤ 1 :=
  (investor_match_scores_in_unit_interval sampleStartupA sampleInvestorB
      (by intro t ht; simp [sampleStartupA] at ht; subst ht; norm_num)).2.2.2.2.2

/-- Claim C8: holding everything else fixed, moving a positive funding
target strictly further outside the investor's ticket range (strictly
lower when already below the minimum, strictly higher when already above
the maximum) never increases the ticket-size sub-score.  The hypothesis
`min ≤ max` is the ordered-pair invariant of the investor data model. -/
theorem ticket_size_match_monotone_outside (s : StartupProfile) (i : InvestorProfile)
    (hordered : i.ticket_size_min ≤ i.ticket_size_max) (t t' : ℚ) :
    (0 < t' → t' < t → t < i.ticket_size_min →
      (_calculate_investor_match_score investor_match_weights
          { s with funding_amount_target := some t' } i).ticket_size_match ≤
      (_calculate_investor_match_score investor_match_weights
          { s with funding_amount_target := some t } i).ticket_size_match) ∧
    (0 < t → i.ticket_size_max < t → t < t' →
      (_calculate_investor_match_score investor_match_weights
          { s with funding_amount_target := some t' } i).ticket_size_match ≤
      (_calculate_investor_match_score investor_match_weights
          { s with funding_amount_target := some t } i).ticket_size_match) := by
  have ebelow : ∀ x : ℚ, 0 < x → x < i.ticket_size_min →
      (_calculate_investor_match_score investor_match_weights
          { s with funding_amount_target := some x } i).ticket_size_match =
        max 0 (x / i.ticket_size_min * 0.7) := by
    intro x hx hlt
    have hfield :
        (_calculate_investor_match_score investor_match_weights
            { s with funding_amount_target := some x } i).ticket_size_match =
          ticketScore { s with funding_amount_target := some x } i := rfl
    rw [hfield]
    simp [ticketScore, hx.ne', hlt, hlt.not_le]
  have eabove : ∀ x : ℚ, 0 < x → i.ticket_size_max < x →
      (_calculate_investor_match_score investor_match_weights
          { s with funding_amount_target := some x } i).ticket_size_match =
        max 0 (i.ticket_size_max / x * 0.8) := by
    intro x hx hgt
    have hfield :
        (_calculate_investor_match_score investor_match_weights
            { s with funding_amount_target := some x } i).ticket_size_match =
          ticketScore { s with funding_amount_target := some x } i := rfl
    rw [hfield]
    have hnlo : ¬ x < i.ticket_size_min :=
      not_lt.2 (le_of_lt (lt_of_le_of_lt hordered hgt))
    simp [ticketScore, hx.ne', hgt, hgt.not_le, hnlo]
  constructor
  · intro ht' htt' hlt
    have htpos : 0 < t := lt_trans ht' htt'
    have hmin : 0 < i.ticket_size_min := lt_trans htpos hlt
    rw [ebelow t' ht' (lt_trans htt' hlt), ebelow t htpos hlt]
    refine max_le_max le_rfl ?_
    have hdiv : t' / i.ticket_size_min ≤ t / i.ticket_size_min :=
      div_le_div_of_nonneg_right (le_of_lt htt') (le_of_lt hmin)
    nlinarith
  · intro htpos hgt htt'
    have ht'pos : 0 < t' := lt_trans htpos htt'
    rw [eabove t' ht'pos (lt_trans hgt htt'), eabove t htpos hgt]
    rcases le_or_lt 0 i.ticket_size_max with hM | hM
    · refine max_le_max le_rfl ?_
      have hdiv : i.ticket_size_max / t' ≤ i.ticket_size_max / t :=
        div_le_div_of_nonneg_left hM htpos (le_of_lt htt')
      nlinarith
    · have d1 : i.ticket_size_max / t' * 0.8 ≤ 0 := by
        nlinarith [div_neg_of_neg_of_pos hM ht'pos]
      rw [max_eq_left d1]
      exact le_max_left _ _

/-- Witness for C8: lowering a below-range target from 20,000 to 10,000
against the sample investor (minimum ticket 50,000) does not increase
the ticket-size sub-score. -/
theorem ticket_size_match_monotone_outside_witness :
    (_calculate_investor_match_score investor_match_weights
        { sampleStartupA with funding_amount_target := some 10000 }
        sampleInvestorB).ticket_size_match ≤
    (_calculate_investor_match_score investor_match_weights
        { sampleStartupA with funding_amount_target := some 20000 }
        sampleInvestorB).ticket_size_match :=
  (ticket_size_match_monotone_outside sampleStartupA sampleInvestorB
      (by norm_num [sampleInvestorB]) 20000 10000).1
    (by norm_num) (by norm_num) (by norm_num [sampleInvestorB])

/-! ## Accelerator match scorer and the two rankers -/

/-- Model of `MatchingService._calculate_accelerator_match_score`.  The source
reads `datetime.now()`; the clock is made an explicit `now` parameter
(in days), so `days_until_deadline` is `deadline - now`. -/
def _calculate_accelerator_match_score (startup : StartupProfile)
    (accelerator : EcosystemEntity) (now : ℤ) : ℚ :=
  let score : ℚ := 0.0
  let score := score +
    (if startup.industry ∈ accelerator.focus_industries then 0.35
     else if accelerator.focus_industries.length = 0 then 0.25
     else 0)
  let score := score +
    (if startup.stage ∈ accelerator.focus_stages then 0.30
     else if StartupStage.idea ∈ accelerator.focus_stages ∧
             startup.stage ∈ [StartupStage.idea, StartupStage.mvp] then 0.25
     else 0)
  let score := score +
    (if startup.location = accelerator.location then 0.15
     else if accelerator.location = Location.nairobi then 0.10
     else 0)
  let score := score +
    (match accelerator.application_deadline with
     | some deadline =>
        let days_until_deadline := deadline - now
        if 30 ≤ days_until_deadline ∧ days_until_deadline ≤ 180 then 0.20
        else if 0 < days_until_deadline then 0.10
        else 0
     | none => 0.15)
  min score 1.0

/-- Model of `MatchingService._check_warm_intro_possibility`. -/
def _check_warm_intro_possibility (startup : StartupProfile)
    (investor : InvestorProfile) : Bool :=
  if startup.location = Location.nairobi then true
  else if investor.name ∈ ["Nairobi Angel Network", "iHub"] then true
  else false

/-- Model of `InvestorMatch` of schemas.py, restricted to the fields the ranking
laws are about (the generated reasoning and approach strings are pure
text presentation of the same inputs). -/
structure InvestorMatch where
  investor : InvestorProfile
  match_score : MatchScore
  warm_intro_available : Bool
deriving DecidableEq

/-- Model of `MatchingService.match_investors` over an explicit dataset: score
every investor, keep overall scores strictly above 0.3, sort descending
by overall score (Python's stable sort with `reverse=True`), return the
top ten. -/
def match_investors (startup_profile : StartupProfile)
    (all_investors : List InvestorProfile) : List InvestorMatch :=
  let matchList := all_investors.filterMap (fun investor =>
    let match_score :=
      _calculate_investor_match_score investor_match_weights startup_profile investor
    if 0.3 < match_score.overall_score then
      some { investor := investor
             match_score := match_score
             warm_intro_available := _check_warm_intro_possibility startup_profile investor }
    else none)
  (matchList.mergeSort
    (fun a b => decide (b.match_score.overall_score ≤ a.match_score.overall_score))).take 10

/-- One entry of the dictionary list built by `match_accelerators`,
restricted to the scored fields. -/
structure AcceleratorMatch where
  accelerator : EcosystemEntity
  match_score : ℚ
deriving DecidableEq

/-- Model of `MatchingService.match_accelerators` over an explicit dataset and
clock: score every accelerator, keep scores strictly above 0.3, sort
descending, return the top five. -/
def match_accelerators (startup_profile : StartupProfile)
    (all_accelerators : List EcosystemEntity) (now : ℤ) : List AcceleratorMatch :=
  let matchList := all_accelerators.filterMap (fun accelerator =>
    let score := _calculate_accelerator_match_score startup_profile accelerator now
    if 0.3 < score then
      some { accelerator := accelerator, match_score := score }
    else none)
  (matchList.mergeSort
    (fun a b => decide (b.match_score ≤ a.match_score))).take 5

/-! ## Ranker laws -/

/-- Sorting by a descending rational key yields a non-increasing list. -/
lemma pairwise_mergeSort_key {α : Type _} (key : α → ℚ) (l : List α) :
    List.Pairwise (fun a b => key b ≤ key a)
      (l.mergeSort (fun a b => decide (key b ≤ key a))) := by
  have hp := @List.sorted_mergeSort α (fun a b => decide (key b ≤ key a))
      (fun a b c hab hbc => by
        simp only [decide_eq_true_eq] at hab hbc ⊢
        exact le_trans hbc hab)
      (fun a b => by
        simp only [Bool.or_eq_true, decide_eq_true_eq]
        exact le_total _ _)
      l
  exact hp.imp (fun h => of_decide_eq_true h)

/-- Claim C4: neither ranker ever returns an entry scoring ≤ 0.3: every
investor match has overall score strictly above 0.3 and every
accelerator match has score strictly above 0.3. -/
theorem ranker_never_returns_low_scores :
    (∀ (s : StartupProfile) (ds : List InvestorProfile) (m : InvestorMatch),
        m ∈ match_investors s ds → 0.3 < m.match_score.overall_score) ∧
    (∀ (s : StartupProfile) (ds : List EcosystemEntity) (now : ℤ) (m : AcceleratorMatch),
        m ∈ match_accelerators s ds now → 0.3 < m.match_score) := by
  constructor
  · intro s ds m hm
    simp only [match_investors] at hm
    replace hm := List.Sublist.mem hm (List.take_sublist _ _)
    rw [List.mem_mergeSort, List.mem_filterMap] at hm
    obtain ⟨inv, -, heq⟩ := hm
    by_cases h : 0.3 <
        (_calculate_investor_match_score investor_match_weights s inv).overall_score
    · simp only [h, if_true, Option.some.injEq] at heq
      subst heq
      simpa using h
    · simp [h] at heq
  · intro s ds now m hm
    simp only [match_accelerators] at hm
    replace hm := List.Sublist.mem hm (List.take_sublist _ _)
    rw [List.mem_mergeSort, List.mem_filterMap] at hm
    obtain ⟨acc, -, heq⟩ := hm
    by_cases h : 0.3 < _calculate_accelerator_match_score s acc now
    · simp only [h, if_true, Option.some.injEq] at heq
      subst heq
      simpa using h
    · simp [h] at heq

/-- A concrete accelerator with rolling admissions at the hub location. -/
def sampleAcceleratorD : EcosystemEntity :=
  { name := "Sample Hub"
    location := Location.nairobi
    focus_industries := [Industry.fintech]
    focus_stages := [StartupStage.seed]
    application_deadline := none }

/-- The single entry `match_investors` produces for the sample profile
against the sample investor. -/
def sampleInvestorMatchB : InvestorMatch :=
  { investor := sampleInvestorB
    match_score :=
      { overall_score := 0.76
        industry_alignment := 1
        stage_fit := 1
        ticket_size_match := 0.1
        geographic_preference := 1
        portfolio_synergy := 0.4 }
    warm_intro_available := true }

/-- The single entry `match_accelerators` produces for the sample profile
against the sample accelerator at clock 0. -/
def sampleAcceleratorMatchD : AcceleratorMatch :=
  { accelerator := sampleAcceleratorD
    match_score := 0.95 }

/-- Witness for C4: both rankers, run on concrete singleton datasets,
return entries scoring strictly above 0.3. -/
theorem ranker_never_returns_low_scores_witness :
    0.3 < sampleInvestorMatchB.match_score.overall_score ∧
    0.3 < sampleAcceleratorMatchD.match_score := by
  constructor
  · refine ranker_never_returns_low_scores.1 sampleStartupA [sampleInvestorB]
      sampleInvestorMatchB ?_
    rw [show match_investors sampleStartupA [sampleInvestorB] = [sampleInvestorMatchB] from by
      unfold match_investors
      norm_num [List.filterMap_cons, sampleStartupA, sampleInvestorB, sampleInvestorMatchB,
        _calculate_investor_match_score, industryScore, stageScore, ticketScore,
        geoScore, synergyScore, investor_match_weights, _check_warm_intro_possibility,
        List.mergeSort_singleton, List.take_of_length_le]]
    simp
  · refine ranker_never_returns_low_scores.2 sampleStartupA [sampleAcceleratorD] 0
      sampleAcceleratorMatchD ?_
    rw [show match_accelerators sampleStartupA [sampleAcceleratorD] 0 =
        [sampleAcceleratorMatchD] from by
      unfold match_accelerators
      norm_num [List.filterMap_cons, sampleStartupA, sampleAcceleratorD, sampleAcceleratorMatchD,
        _calculate_accelerator_match_score, List.mergeSort_singleton, List.take_of_length_le]]
    simp

/-- Claim C5: ranker output is the top of the qualifying matches: the
investor list is sorted non-increasing by overall score with at most ten
entries, the accelerator list is sorted non-increasing by score with at
most five entries. -/
theorem ranker_sorted_and_truncated :
    (∀ (s : StartupProfile) (ds : List InvestorProfile),
        (match_investors s ds).length ≤ 10 ∧
        (match_investors s ds).Pairwise (fun a b =>
          b.match_score.overall_score ≤ a.match_score.overall_score)) ∧
    (∀ (s : StartupProfile) (ds : List EcosystemEntity) (now : ℤ),
        (match_accelerators s ds now).length ≤ 5 ∧
        (match_accelerators s ds now).Pairwise (fun a b =>
          b.match_score ≤ a.match_score)) := by
  constructor
  · intro s ds
    refine ⟨?_, ?_⟩
    · simp only [match_investors]
      exact List.length_take_le _ _
    · simp only [match_investors]
      exact List.Pairwise.sublist (List.take_sublist _ _)
        (pairwise_mergeSort_key (fun m : InvestorMatch => m.match_score.overall_score) _)
  · intro s ds now
    refine ⟨?_, ?_⟩
    · simp only [match_accelerators]
      exact List.length_take_le _ _
    · simp only [match_accelerators]
      exact List.Pairwise.sublist (List.take_sublist _ _)
        (pairwise_mergeSort_key (fun m : AcceleratorMatch => m.match_score) _)

/-! ## Confidence scorer (groq_service.py) -/

/-- Python's `str.lower()` on the character-list embedding of strings. -/
def lowerStr (s : List Char) : List Char := s.map Char.toLower

/-- Python's `sum(1 for x in xs if x in content)`: the number of needles
present in the haystack, each needle counted at most once. -/
def countPresent (needles : List (List Char)) (content : List Char) : ℕ :=
  (needles.filter (fun needle => decide (needle <:+: content))).length

/-- The `kenya_terms` vocabulary list of `_calculate_confidence_score`. -/
def kenya_terms : List (List Char) :=
  ["kenya", "kenyan", "nairobi", "mombasa", "kra", "cbk", "ihub",
   "tlcom", "novastar", "mest", "antler", "shilling", "east africa",
   "kiico", "ecitizen", "kipi"].map String.toList

/-- The `structure_indicators` list of `_calculate_confidence_score`. -/
def structure_indicators : List (List Char) :=
  ["##", "**", "###", "- ", "1.", "2.", "3."].map String.toList

/-- The `action_words` list of `_calculate_confidence_score`. -/
def action_words : List (List Char) :=
  ["next steps", "action", "recommend", "should", "can",
   "contact", "apply"].map String.toList

/-- The length component: `min(len(content) / 1200, 1.0) * 0.25`. -/
def lengthScoreOf (content : List Char) : ℚ :=
  min ((content.length : ℚ) / 1200) 1.0 * 0.25

/-- The Kenya-specific content component:
`min(kenya_mentions / 6, 1.0) * 0.3` where `kenya_mentions` counts the
vocabulary terms occurring case-insensitively in the content. -/
def kenyaScoreOf (content : List Char) : ℚ :=
  min ((countPresent (kenya_terms.map lowerStr) (lowerStr content) : ℚ) / 6) 1.0 * 0.3

/-- The structure-and-formatting component:
`min(structure_count / 8, 1.0) * 0.2` (markers matched case-sensitively). -/
def structureScoreOf (content : List Char) : ℚ :=
  min ((countPresent structure_indicators content : ℚ) / 8) 1.0 * 0.2

/-- The actionability component: `min(action_mentions / 5, 1.0) * 0.15`. -/
def actionScoreOf (content : List Char) : ℚ :=
  min ((countPresent action_words (lowerStr content) : ℚ) / 5) 1.0 * 0.15

/-- The specificity bonus: +0.05 when any digit character appears. -/
def digitBonus (content : List Char) : ℚ :=
  if content.any Char.isDigit then 0.05 else 0

/-- The contact/link bonus: +0.05 when an `@` appears or `http` occurs
case-insensitively. -/
def contactBonus (content : List Char) : ℚ :=
  if 0 < content.count '@' ∨ "http".toList <:+: lowerStr content then 0.05 else 0

/-- Model of `GroqService._calculate_confidence_score`: 0.0 on empty content,
otherwise the accumulated components capped at 1.0.  The `question`
argument is accepted and, as in the source, never read. -/
def _calculate_confidence_score (content : List Char) (question : List Char) : ℚ :=
  if content = [] then 0.0
  else
    min (lengthScoreOf content + kenyaScoreOf content + structureScoreOf content +
      actionScoreOf content + digitBonus content + contactBonus content) 1.0

lemma lengthScoreOf_nonneg (c : List Char) : 0 ≤ lengthScoreOf c := by
  unfold lengthScoreOf
  have h : (0:ℚ) ≤ min ((c.length : ℚ) / 1200) 1.0 := le_min (by positivity) (by norm_num)
  nlinarith

lemma kenyaScoreOf_nonneg (c : List Char) : 0 ≤ kenyaScoreOf c := by
  unfold kenyaScoreOf
  have h : (0:ℚ) ≤ min ((countPresent (kenya_terms.map lowerStr) (lowerStr c) : ℚ) / 6) 1.0 :=
    le_min (by positivity) (by norm_num)
  nlinarith

lemma structureScoreOf_nonneg (c : List Char) : 0 ≤ structureScoreOf c := by
  unfold structureScoreOf
  have h : (0:ℚ) ≤ min ((countPresent structure_indicators c : ℚ) / 8) 1.0 :=
    le_min (by positivity) (by norm_num)
  nlinarith

lemma actionScoreOf_nonneg (c : List Char) : 0 ≤ actionScoreOf c := by
  unfold actionScoreOf
  have h : (0:ℚ) ≤ min ((countPresent action_words (lowerStr c) : ℚ) / 5) 1.0 :=
    le_min (by positivity) (by norm_num)
  nlinarith

/-- Claim C6: the confidence scorer maps empty content (with any
question) to exactly 0.0, and every content/question pair to a value in
the closed interval [0,1]. -/
theorem confidence_score_empty_and_bounded :
    (∀ question : List Char, _calculate_confidence_score [] question = 0) ∧
    (∀ content question : List Char,
      0 ≤ _calculate_confidence_score content question ∧
      _calculate_confidence_score content question ≤ 1) := by
  constructor
  · intro q
    norm_num [_calculate_confidence_score]
  · intro c q
    unfold _calculate_confidence_score
    split_ifs with h
    · norm_num
    · have h1 := lengthScoreOf_nonneg c
      have h2 := kenyaScoreOf_nonneg c
      have h3 := structureScoreOf_nonneg c
      have h4 := actionScoreOf_nonneg c
      have h5 : 0 ≤ digitBonus c := by
        unfold digitBonus
        split_ifs <;> norm_num
      have h6 : 0 ≤ contactBonus c := by
        unfold contactBonus
        split_ifs <;> norm_num
      refine ⟨le_min (by linarith) (by norm_num),
        le_trans (min_le_right _ _) (by norm_num)⟩

/-! ## The domain-term component: code count versus spec count -/

/-- Number of occurrence positions of `needle` in `hay` (occurrences
counted with multiplicity). -/
def occCount (needle : List Char) (hay : List Char) : ℕ :=
  ((List.range (hay.length + 1)).filter (fun i => decide (needle <+: hay.drop i))).length

/-- Modelled from the claim's wording: the total number of occurrences,
by case-insensitive substring match, of vocabulary terms in the text. -/
def specKenyaOccurrences (content : List Char) : ℕ :=
  (kenya_terms.map (fun term => occCount (lowerStr term) (lowerStr content))).sum

/-- Modelled from the claim's wording: the domain-term component as
`min(occurrences / 6, 1.0) × 0.30` over the occurrence count with
multiplicity. -/
def specKenyaScore (content : List Char) : ℚ :=
  min ((specKenyaOccurrences content : ℚ) / 6) 1.0 * 0.3

/-- Counterexample to C9 as stated: in the text "kra kra" the vocabulary
term "kra" occurs twice, so the occurrence-count formula yields
min(2/6,1)·0.30 = 0.10, while the code counts each term at most once and
yields min(1/6,1)·0.30 = 0.05. -/
theorem kenya_component_occurrences_counterexample :
    kenyaScoreOf "kra kra".toList ≠ specKenyaScore "kra kra".toList := by
  have h1 : countPresent (kenya_terms.map lowerStr) (lowerStr "kra kra".toList) = 1 := by
    decide
  have h2 : specKenyaOccurrences "kra kra".toList = 2 := by decide
  unfold kenyaScoreOf specKenyaScore
  rw [h1, h2]
  rw [min_eq_left (by norm_num), min_eq_left (by norm_num)]
  norm_num

/-- Modelled from the amended claim's wording: the number of vocabulary
terms that occur at least once, by case-insensitive substring match, in
the text. -/
def specKenyaTermsPresent (content : List Char) : ℕ :=
  (kenya_terms.filter (fun term => decide (lowerStr term <:+: lowerStr content))).length

/-- Claim C9 (amended): the domain-term component of the confidence
scorer equals min(count / 6, 1.0) × 0.30 where count is the number of
terms from the fixed vocabulary list that occur in the response text,
each term counted at most once, by case-insensitive substring match. -/
theorem kenya_component_presence_formula (content : List Char) :
    kenyaScoreOf content =
      min ((specKenyaTermsPresent content : ℚ) / 6) 1.0 * 0.3 := by
  unfold kenyaScoreOf countPresent specKenyaTermsPresent
  rw [List.filter_map, List.length_map]
  rfl

/-! ## Clock dependence of the accelerator scorer -/

/-- A concrete accelerator with an application deadline and otherwise no
overlap with the sample profile. -/
def sampleAcceleratorE : EcosystemEntity :=
  { name := "Deadline Labs"
    location := Location.mombasa
    focus_industries := [Industry.agritech]
    focus_stages := [StartupStage.mature]
    application_deadline := some 100 }

/-- Counterexample to C7 as stated: the accelerator match scorer is not a
pure function of the startup and accelerator alone — with a deadline 100
days out it scores 0.20 when read at clock 0 (inside the 30–180 day
window) and 0.10 when read at clock 99 (one day left). -/
theorem accelerator_score_depends_on_clock :
    _calculate_accelerator_match_score sampleStartupA sampleAcceleratorE 0 ≠
      _calculate_accelerator_match_score sampleStartupA sampleAcceleratorE 99 := by
  have hL : _calculate_accelerator_match_score sampleStartupA sampleAcceleratorE 0 = 0.2 := by
    norm_num [_calculate_accelerator_match_score, sampleStartupA, sampleAcceleratorE,
      show (Industry.fintech = Industry.agritech) = False from by simp,
      show (StartupStage.seed = StartupStage.mature) = False from by simp,
      show (StartupStage.idea = StartupStage.mature) = False from by simp,
      show (Location.nairobi = Location.mombasa) = False from by simp,
      show (Location.mombasa = Location.nairobi) = False from by simp,
      inf_eq_left]
  have hR : _calculate_accelerator_match_score sampleStartupA sampleAcceleratorE 99 = 0.1 := by
    norm_num [_calculate_accelerator_match_score, sampleStartupA, sampleAcceleratorE,
      show (Industry.fintech = Industry.agritech) = False from by simp,
      show (StartupStage.seed = StartupStage.mature) = False from by simp,
      show (StartupStage.idea = StartupStage.mature) = False from by simp,
      show (Location.nairobi = Location.mombasa) = False from by simp,
      show (Location.mombasa = Location.nairobi) = False from by simp,
      inf_eq_left]
  rw [hL, hR]
  norm_num

/-- Claim C7 (amended): each scorer is deterministic in its explicit
inputs; the accelerator scorer additionally reads the clock, and its
output is independent of the clock whenever the accelerator declares no
application deadline. -/
theorem accelerator_score_clock_independent_without_deadline
    (s : StartupProfile) (a : EcosystemEntity) (now now' : ℤ)
    (h : a.application_deadline = none) :
    _calculate_accelerator_match_score s a now =
      _calculate_accelerator_match_score s a now' := by
  simp [_calculate_accelerator_match_score, h]

/-- Witness for amended C7: the rolling-admissions sample accelerator
scores identically at clock 0 and clock 365. -/
theorem accelerator_score_clock_independent_witness :
    _calculate_accelerator_match_score sampleStartupA sampleAcceleratorD 0 =
      _calculate_accelerator_match_score sampleStartupA sampleAcceleratorD 365 :=
  accelerator_score_clock_independent_without_deadline
    sampleStartupA sampleAcceleratorD 0 365 rfl
